import Mathlib

/- Verification of the NYC Yellow Taxi analytics service (PostgreSQL + Flask
backend, React frontend) against its documented behaviour.

The backend's Python/SQL sources are not in the repository snapshot; the
repository carries the backend README (with the full `trips` DDL, the
endpoint list, the filter parameters and the response contract) and the
frontend components that call the API.  Backend behaviour is therefore
modelled from the spec and the README, while the frontend computations
(the fare/tip hour grouping and the KPI formatters) are translated
directly from `TripAnalyticsDashboard.jsx`.

Numeric SQL FLOAT columns and JavaScript numbers are modelled as `ℚ`;
timestamps are seconds since the Unix epoch as `ℕ`. -/

namespace TaxiAnalytics

/- ------------------------------------------------------------------
Calendar arithmetic: the model of `EXTRACT(DOW ...)`, `EXTRACT(HOUR ...)`
and `YYYY-MM-DD` date parsing used by the backend filters.
------------------------------------------------------------------ -/

/-- Count of leap years in `1..y` (Gregorian rule). -/
def leapYearsUpTo (y : Nat) : Nat := y / 4 - y / 100 + y / 400

/-- Gregorian leap-year test. -/
def isLeapYear (y : Nat) : Bool :=
  (y % 4 == 0 && y % 100 != 0) || (y % 400 == 0)

/-- Days in the months strictly before month `m` (1-based) of a
common/leap year. -/
def cumDaysBeforeMonth (leap : Bool) (m : Nat) : Nat :=
  [0, 31, 59, 90, 120, 151, 181, 212, 243, 273, 304, 334].getD (m - 1) 0
    + (if leap && 2 < m then 1 else 0)

/-- Days from 1970-01-01 to the civil date `y-m-d` (dates at or after
the epoch only, which covers the 2025 TLC data this service loads). -/
def daysSinceEpoch (y m d : Nat) : Nat :=
  365 * (y - 1970) + (leapYearsUpTo (y - 1) - leapYearsUpTo 1969)
    + cumDaysBeforeMonth (isLeapYear y) m + (d - 1)

/-- Modelled from the spec: PostgreSQL `EXTRACT(DOW FROM pickup_time)`
on a timestamp given as seconds since the epoch; `0 = Sunday .. 6 =
Saturday`.  1970-01-01 (epoch day 0) was a Thursday, i.e. day-of-week 4. -/
def extractDow (t : Nat) : Nat := (t / 86400 + 4) % 7

/-- Modelled from the spec: PostgreSQL `EXTRACT(HOUR FROM pickup_time)`
on a timestamp given as seconds since the epoch. -/
def extractHour (t : Nat) : Nat := t % 86400 / 3600

/-- Value of a decimal digit character. -/
def digitVal (c : Char) : Option Nat :=
  if '0' ≤ c ∧ c ≤ '9' then some (c.toNat - 48) else none

/-- Accumulator loop of `parseNatChars`. -/
def parseNatLoop : List Char → Nat → Option Nat
  | [], acc => some acc
  | c :: rest, acc =>
    match digitVal c with
    | some d => parseNatLoop rest (acc * 10 + d)
    | none => none

/-- Parse a nonempty all-digit character list as a natural number. -/
def parseNatChars : List Char → Option Nat
  | [] => none
  | cs => parseNatLoop cs 0

/-- Accumulator loop of `splitDash`. -/
def splitDashLoop : List Char → List Char → List (List Char)
  | [], acc => [acc.reverse]
  | c :: rest, acc =>
    if c = '-' then acc.reverse :: splitDashLoop rest []
    else splitDashLoop rest (c :: acc)

/-- Split a character list on the hyphen character. -/
def splitDash (cs : List Char) : List (List Char) :=
  splitDashLoop cs []

/-- Modelled from the spec: parsing of the `start`/`end` query
parameters, documented as `YYYY-MM-DD` date strings; yields seconds
since the epoch at midnight of that date, or `none` when malformed. -/
def parseDate (s : String) : Option Nat :=
  match splitDash s.data with
  | [ys, ms, ds] =>
    match parseNatChars ys, parseNatChars ms, parseNatChars ds with
    | some y, some m, some d =>
      if 1970 ≤ y && 1 ≤ m && m ≤ 12 && 1 ≤ d && d ≤ 31 then
        some (86400 * daysSinceEpoch y m d)
      else none
    | _, _, _ => none
  | _ => none

/- ------------------------------------------------------------------
The fact table.  `RawTrip` is a record as delivered by the ETL input;
`TripRow` is a stored `trips` row including the three generated columns
of the README's DDL.
------------------------------------------------------------------ -/

/-- Source fields of one trip as loaded from the TLC Parquet data
(columns of the `trips` DDL in `src/backend/README.md` that are not
generated; the nullable surcharge columns are omitted as no claim
touches them). -/
structure RawTrip where
  pickup_time : Nat
  dropoff_time : Nat
  distance : ℚ
  fare : ℚ
  tip_amount : ℚ
  total_amount : ℚ
  passenger_count : Nat
  pickup_zone_id : Nat
  dropoff_zone_id : Nat
  vendor_id : String
  payment_id : Nat
deriving DecidableEq

/-- A stored `trips` row: the raw columns plus the three
`GENERATED ALWAYS AS ... STORED` columns. -/
structure TripRow extends RawTrip where
  pickup_weekday : Nat
  pickup_hour : Nat
  trip_duration_min : ℚ
deriving DecidableEq

/-- Modelled from the spec: the bulk load (`setup_and_load.py`, absent
from the snapshot) inserts a row whose generated columns are computed
from the timestamps exactly as in the README DDL:
`pickup_weekday = EXTRACT(DOW FROM pickup_time)`,
`pickup_hour = EXTRACT(HOUR FROM pickup_time)`,
`trip_duration_min = EXTRACT(EPOCH FROM dropoff_time - pickup_time) / 60`. -/
def loadTrip (r : RawTrip) : TripRow :=
  { r with
    pickup_weekday := extractDow r.pickup_time
    pickup_hour := extractHour r.pickup_time
    trip_duration_min := ((r.dropoff_time : ℚ) - (r.pickup_time : ℚ)) / 60 }

/- ------------------------------------------------------------------
Filters.
------------------------------------------------------------------ -/

/-- The common optional query parameters, already validated
(`end` is a Lean keyword, hence the field name `end_`). -/
structure Filter where
  start : Option Nat
  end_ : Option Nat
  weekday : Option Nat
  hour : Option Nat
  vendor_id : Option String
  payment_id : Option Nat
deriving DecidableEq

/-- The filterless request: no query parameter supplied. -/
def Filter.empty : Filter := ⟨none, none, none, none, none, none⟩

/-- Modelled from the spec: the conjunctive WHERE clause every endpoint
builds from the supplied parameters; an absent parameter contributes no
conjunct.  `start`/`end` bound `pickup_time`, `weekday`/`hour` compare
the generated columns, `vendor_id`/`payment_id` compare the foreign
keys. -/
def tripMatches (f : Filter) (t : TripRow) : Bool :=
  (match f.start with | none => true | some s => decide (s ≤ t.pickup_time))
  && (match f.end_ with | none => true | some e => decide (t.pickup_time ≤ e))
  && (match f.weekday with | none => true | some w => t.pickup_weekday == w)
  && (match f.hour with | none => true | some h => t.pickup_hour == h)
  && (match f.vendor_id with | none => true | some v => t.vendor_id == v)
  && (match f.payment_id with | none => true | some p => t.payment_id == p)

/-- The rows of the fact table that satisfy a filter. -/
def filterTrips (f : Filter) (ts : List TripRow) : List TripRow :=
  ts.filter (tripMatches f)

/-- Satisfaction of an optional filter: `optSat o p` holds when the optional filter value `o`, if present,
satisfies `p`; an absent value imposes no constraint. -/
def optSat {α : Type} (o : Option α) (p : α → Prop) : Prop :=
  match o with
  | none => True
  | some x => p x

/- ------------------------------------------------------------------
Aggregations backing the query endpoints (the materialized views of
`create_views.py`, recomputed here as pure functions of the fact
table).
------------------------------------------------------------------ -/

/-- Mean of a list of rationals (SQL `AVG`); `0` on the empty list
because `ℚ` division by zero is zero. -/
def ratAvg (xs : List ℚ) : ℚ := xs.sum / xs.length

/-- Grouping key of the `peak_hours` view. -/
def peakKey (t : TripRow) : Nat × Nat := (t.pickup_weekday, t.pickup_hour)

/-- One row of the `peak_hours` view / the `peak-hours` endpoint. -/
structure PeakRow where
  weekday : Nat
  hour : Nat
  trip_count : Nat
  avg_fare : ℚ
  avg_distance : ℚ
  avg_duration_min : ℚ
deriving DecidableEq

/-- Modelled from the spec: trip counts and averages grouped by
`(pickup_weekday, pickup_hour)` (the `peak_hours` view of
`create_views.py`, absent from the snapshot). -/
def aggPeak (ts : List TripRow) : List PeakRow :=
  ((ts.map peakKey).dedup).map (fun k =>
    let g := ts.filter (fun t => peakKey t == k)
    { weekday := k.1
      hour := k.2
      trip_count := g.length
      avg_fare := ratAvg (g.map (fun t => t.fare))
      avg_distance := ratAvg (g.map (fun t => t.distance))
      avg_duration_min := ratAvg (g.map (fun t => t.trip_duration_min)) })

/-- Descending comparison on trip counts (`ORDER BY trip_count DESC`). -/
def peakLe (a b : PeakRow) : Bool := decide (b.trip_count ≤ a.trip_count)

/-- The ranked, capped peak-hours aggregate over a set of fact rows:
group by weekday/hour, rank by descending trip count, `LIMIT 10`. -/
def aggPeakTop (ts : List TripRow) : List PeakRow :=
  ((aggPeak ts).mergeSort peakLe).take 10

/-- Modelled from the spec: the `/api/peak-hours` query — filter, group
by weekday/hour, rank by descending trip count, `LIMIT 10`. -/
def peakHoursQuery (f : Filter) (ts : List TripRow) : List PeakRow :=
  aggPeakTop (filterTrips f ts)

/-- One row of the `vendor_performance` view / endpoint. -/
structure VendorRow where
  vendor_id : String
  trip_count : Nat
  avg_fare : ℚ
  avg_tip : ℚ
  avg_distance : ℚ
  total_revenue : ℚ
deriving DecidableEq

/-- Modelled from the spec: per-vendor trip count, averages and summed
`total_amount` (the `vendor_performance` view, absent from the
snapshot). -/
def aggVendor (ts : List TripRow) : List VendorRow :=
  ((ts.map (fun t => t.vendor_id)).dedup).map (fun v =>
    let g := ts.filter (fun t => t.vendor_id == v)
    { vendor_id := v
      trip_count := g.length
      avg_fare := ratAvg (g.map (fun t => t.fare))
      avg_tip := ratAvg (g.map (fun t => t.tip_amount))
      avg_distance := ratAvg (g.map (fun t => t.distance))
      total_revenue := (g.map (fun t => t.total_amount)).sum })

/-- Modelled from the spec: the `/api/vendor-performance` query. -/
def vendorPerformanceQuery (f : Filter) (ts : List TripRow) : List VendorRow :=
  aggVendor (filterTrips f ts)

/-- ETL payment-type codes of the README (`5 → UNK` is also the
fallback). -/
def paymentTypeOf (p : Nat) : String :=
  match p with
  | 1 => "CRD"
  | 2 => "CSH"
  | 3 => "NOC"
  | 4 => "DIS"
  | 6 => "VOD"
  | _ => "UNK"

/-- One row of the fare/tip analysis endpoint. -/
structure FareTipRow where
  weekday : Nat
  hour : Nat
  payment_type : String
  avg_fare : ℚ
  avg_tip : ℚ
  tip_to_fare_ratio : ℚ
  trip_count : Nat
deriving DecidableEq

/-- Modelled from the spec: average fare, average tip, tip-to-fare
ratio and trip count grouped by weekday, hour, and payment type
(`fare_trip.py`, absent from the snapshot). -/
def aggFareTip (ts : List TripRow) : List FareTipRow :=
  ((ts.map (fun t => (t.pickup_weekday, t.pickup_hour, t.payment_id))).dedup).map
    (fun k =>
      let g := ts.filter
        (fun t => (t.pickup_weekday, t.pickup_hour, t.payment_id) == k)
      let af := ratAvg (g.map (fun t => t.fare))
      let at_ := ratAvg (g.map (fun t => t.tip_amount))
      { weekday := k.1
        hour := k.2.1
        payment_type := paymentTypeOf k.2.2
        avg_fare := af
        avg_tip := at_
        tip_to_fare_ratio := at_ / af
        trip_count := g.length })

/-- Modelled from the spec: the `/api/fare-tip-analysis` query. -/
def fareTipQuery (f : Filter) (ts : List TripRow) : List FareTipRow :=
  aggFareTip (filterTrips f ts)

/-- Direction parameter of the map-density endpoint. -/
inductive DensityType where
  | pickup
  | dropoff
deriving DecidableEq

/-- One row of the `trip_zone_density`-backed map endpoint. -/
structure DensityRow where
  zone_id : Nat
  trip_count : Nat
deriving DecidableEq

/-- Zone key selected by the `type` parameter. -/
def densityKey (dt : DensityType) (t : TripRow) : Nat :=
  match dt with
  | .pickup => t.pickup_zone_id
  | .dropoff => t.dropoff_zone_id

/-- Descending comparison on zone trip counts. -/
def densityLe (a b : DensityRow) : Bool := decide (b.trip_count ≤ a.trip_count)

/-- The per-zone density aggregate over a set of fact rows: trip
counts per zone for the chosen direction, busiest first, capped at
`limit`. -/
def aggDensity (dt : DensityType) (limit : Nat) (ts : List TripRow) :
    List DensityRow :=
  ((((ts.map (densityKey dt)).dedup).map (fun z =>
      { zone_id := z
        trip_count := ts.countP (fun t => densityKey dt t == z) }))
    |>.mergeSort densityLe).take limit

/-- Modelled from the spec: the `/api/map-density` query (default
direction `pickup`, default `limit` 150). -/
def mapDensityQuery (dt : DensityType) (limit : Nat) (f : Filter)
    (ts : List TripRow) : List DensityRow :=
  aggDensity dt limit (filterTrips f ts)

/- ------------------------------------------------------------------
The analytics materialized views and the refresh endpoint.
------------------------------------------------------------------ -/

/-- A `zones` lookup row (TLC taxi zone). -/
structure Zone where
  zone_id : Nat
  borough : String
  zone_name : String
  service_zone : String
deriving DecidableEq

/-- Borough of a pickup zone id, `"Unknown"` when the id has no zone
row. -/
def boroughOf (zones : List Zone) (zid : Nat) : String :=
  match zones.find? (fun z => z.zone_id == zid) with
  | some z => z.borough
  | none => "Unknown"

/-- The `analytics_kpis` row. -/
structure Kpis where
  total_trips : Nat
  avg_fare : ℚ
  avg_distance : ℚ
  avg_duration_min : ℚ
  total_revenue : ℚ
deriving DecidableEq

/-- An `analytics_payment_mix` row. -/
structure PaymentMixRow where
  payment_type : String
  trip_count : Nat
deriving DecidableEq

/-- An `analytics_trips_by_borough` row. -/
structure BoroughRow where
  borough : String
  trip_count : Nat
deriving DecidableEq

/-- An `analytics_trips_by_weekday` row. -/
structure WeekdayRow where
  weekday : Nat
  trip_count : Nat
deriving DecidableEq

/-- An `analytics_trips_by_hour` row. -/
structure HourRow where
  hour : Nat
  trip_count : Nat
deriving DecidableEq

/-- Contents of the five `analytics_*` materialized views that feed
`/api/trip-analytics`. -/
structure Analytics where
  kpis : Kpis
  payment_mix : List PaymentMixRow
  trips_by_borough : List BoroughRow
  trips_by_weekday : List WeekdayRow
  trips_by_hour : List HourRow
deriving DecidableEq

/-- Modelled from the spec: recomputation of the five `analytics_*`
views as a pure function of the lookup and fact tables. -/
def computeAnalytics (zones : List Zone) (ts : List TripRow) : Analytics :=
  { kpis :=
      { total_trips := ts.length
        avg_fare := ratAvg (ts.map (fun t => t.fare))
        avg_distance := ratAvg (ts.map (fun t => t.distance))
        avg_duration_min := ratAvg (ts.map (fun t => t.trip_duration_min))
        total_revenue := (ts.map (fun t => t.total_amount)).sum }
    payment_mix :=
      ((ts.map (fun t => t.payment_id)).dedup).map (fun p =>
        { payment_type := paymentTypeOf p
          trip_count := ts.countP (fun t => t.payment_id == p) })
    trips_by_borough :=
      ((ts.map (fun t => boroughOf zones t.pickup_zone_id)).dedup).map (fun b =>
        { borough := b
          trip_count :=
            ts.countP (fun t => boroughOf zones t.pickup_zone_id == b) })
    trips_by_weekday :=
      ((ts.map (fun t => t.pickup_weekday)).dedup).map (fun w =>
        { weekday := w
          trip_count := ts.countP (fun t => t.pickup_weekday == w) })
    trips_by_hour :=
      ((ts.map (fun t => t.pickup_hour)).dedup).map (fun h =>
        { hour := h
          trip_count := ts.countP (fun t => t.pickup_hour == h) }) }

/-- State of the relational store: lookup tables, the fact table, the
materialized aggregate views last built, and whether the store is
reachable at all. -/
structure DBState where
  available : Bool
  zones : List Zone
  trips : List TripRow
  analytics : Analytics
deriving DecidableEq

/-- Modelled from the spec: `POST /api/refresh-trip-analytics` rebuilds
the `analytics_*` views from the current fact table; nothing else in
the store changes. -/
def refreshTripAnalytics (db : DBState) : DBState :=
  { db with analytics := computeAnalytics db.zones db.trips }

/- ------------------------------------------------------------------
The REST layer: JSON values, parameter validation, error taxonomy and
the request handler shared by all endpoints.
------------------------------------------------------------------ -/

/-- JSON values (numbers as `ℚ`). -/
inductive Json where
  | null
  | bool (b : Bool)
  | num (q : ℚ)
  | str (s : String)
  | arr (xs : List Json)
  | obj (fields : List (String × Json))

/-- Whether a JSON value is an object carrying the given key. -/
def Json.hasKey : Json → String → Bool
  | .obj fs, k => fs.any (fun p => p.1 == k)
  | _, _ => false

/-- First value stored under a key of a JSON object. -/
def Json.getKey : Json → String → Option Json
  | .obj fs, k => (fs.find? (fun p => p.1 == k)).map (fun p => p.2)
  | _, _ => none

/-- Encode an optional value, `null` when absent. -/
def encodeOpt {α : Type} (enc : α → Json) : Option α → Json
  | none => Json.null
  | some x => enc x

/-- Echo of the validated filters inside the response metadata. -/
def encodeFilter (f : Filter) : Json :=
  Json.obj
    [("start", encodeOpt (fun n => Json.num n) f.start),
     ("end", encodeOpt (fun n => Json.num n) f.end_),
     ("weekday", encodeOpt (fun n => Json.num n) f.weekday),
     ("hour", encodeOpt (fun n => Json.num n) f.hour),
     ("vendor_id", encodeOpt Json.str f.vendor_id),
     ("payment_id", encodeOpt (fun n => Json.num n) f.payment_id)]

/-- Modelled from the spec: every success body is an object with a
`metadata` field (row count, filters echoed back, execution time,
timestamp) and a `data` field holding the list of result rows.  The
model has no clock, so execution time and timestamp are fixed. -/
def mkSuccess (f : Filter) (rows : List Json) : Json :=
  Json.obj
    [("metadata",
       Json.obj
         [("row_count", Json.num rows.length),
          ("filters", encodeFilter f),
          ("execution_time_ms", Json.num 0),
          ("timestamp", Json.str "")]),
     ("data", Json.arr rows)]

/-- Raw, unvalidated query parameters of a request. -/
structure RawParams where
  start : Option String
  end_ : Option String
  weekday : Option String
  hour : Option String
  vendor_id : Option String
  payment_id : Option String
deriving DecidableEq

/-- The parameterless request. -/
def RawParams.empty : RawParams := ⟨none, none, none, none, none, none⟩

/-- Parse an integer parameter and check it lies in `lo..hi`. -/
def parseBounded (s : String) (lo hi : Nat) : Option Nat :=
  match parseNatChars s.data with
  | some n => if lo ≤ n ∧ n ≤ hi then some n else none
  | none => none

/-- Validate one optional parameter: absent is fine, present must
parse. -/
def parseOptParam {α : Type} (raw : Option String) (parse : String → Option α)
    (msg : String) : Except String (Option α) :=
  match raw with
  | none => .ok none
  | some s =>
    match parse s with
    | some v => .ok (some v)
    | none => .error msg

/-- Modelled from the spec: validation of the raw query parameters
into a `Filter` — `weekday` in `0..6`, `hour` in `0..23`, `payment_id`
in `1..6`, `vendor_id` one of the carrier codes, `start`/`end` valid
dates; the first malformed value yields a validation error with a
message. -/
def parseFilter (p : RawParams) : Except String Filter := do
  let s ← parseOptParam p.start parseDate "invalid start date"
  let e ← parseOptParam p.end_ parseDate "invalid end date"
  let w ← parseOptParam p.weekday (fun x => parseBounded x 0 6)
    "weekday must be an integer between 0 and 6"
  let h ← parseOptParam p.hour (fun x => parseBounded x 0 23)
    "hour must be an integer between 0 and 23"
  let v ← parseOptParam p.vendor_id
    (fun x => if x == "CMT" || x == "VTS" then some x else none)
    "vendor_id must be CMT or VTS"
  let pid ← parseOptParam p.payment_id (fun x => parseBounded x 1 6)
    "payment_id must be an integer between 1 and 6"
  return ⟨s, e, w, h, v, pid⟩

/-- The two error kinds a request can surface. -/
inductive ApiError where
  | validation (message : String)
  | service (message : String)
deriving DecidableEq

/-- HTTP status attached to each error kind. -/
def ApiError.status : ApiError → Nat
  | .validation _ => 400
  | .service _ => 500

/-- The query endpoints of the service. -/
inductive Endpoint where
  | health
  | tripAnalytics
  | mapDensity
  | fareTip
  | peakHours
  | vendorPerformance
deriving DecidableEq

/-- Encoders of the row types into JSON objects. -/
def encodePeakRow (r : PeakRow) : Json :=
  Json.obj
    [("weekday", Json.num r.weekday), ("hour", Json.num r.hour),
     ("trip_count", Json.num r.trip_count), ("avg_fare", Json.num r.avg_fare),
     ("avg_distance", Json.num r.avg_distance),
     ("avg_duration_min", Json.num r.avg_duration_min)]

/-- Encoder of a vendor-performance row. -/
def encodeVendorRow (r : VendorRow) : Json :=
  Json.obj
    [("vendor_id", Json.str r.vendor_id),
     ("trip_count", Json.num r.trip_count), ("avg_fare", Json.num r.avg_fare),
     ("avg_tip", Json.num r.avg_tip), ("avg_distance", Json.num r.avg_distance),
     ("total_revenue", Json.num r.total_revenue)]

/-- Encoder of a fare/tip row. -/
def encodeFareTipRow (r : FareTipRow) : Json :=
  Json.obj
    [("weekday", Json.num r.weekday), ("hour", Json.num r.hour),
     ("payment_type", Json.str r.payment_type),
     ("avg_fare", Json.num r.avg_fare), ("avg_tip", Json.num r.avg_tip),
     ("tip_to_fare_ratio", Json.num r.tip_to_fare_ratio),
     ("trip_count", Json.num r.trip_count)]

/-- Encoder of a map-density row. -/
def encodeDensityRow (r : DensityRow) : Json :=
  Json.obj
    [("zone_id", Json.num r.zone_id), ("trip_count", Json.num r.trip_count)]

/-- Encoder of the analytics overview. -/
def encodeAnalytics (a : Analytics) : Json :=
  Json.obj
    [("kpis",
       Json.obj
         [("total_trips", Json.num a.kpis.total_trips),
          ("avg_fare", Json.num a.kpis.avg_fare),
          ("avg_distance", Json.num a.kpis.avg_distance),
          ("avg_duration_min", Json.num a.kpis.avg_duration_min),
          ("total_revenue", Json.num a.kpis.total_revenue)]),
     ("payment_mix",
       Json.arr (a.payment_mix.map (fun r =>
         Json.obj [("payment_type", Json.str r.payment_type),
                   ("trip_count", Json.num r.trip_count)]))),
     ("trips_by_borough",
       Json.arr (a.trips_by_borough.map (fun r =>
         Json.obj [("borough", Json.str r.borough),
                   ("trip_count", Json.num r.trip_count)]))),
     ("trips_by_weekday",
       Json.arr (a.trips_by_weekday.map (fun r =>
         Json.obj [("weekday", Json.num r.weekday),
                   ("trip_count", Json.num r.trip_count)]))),
     ("trips_by_hour",
       Json.arr (a.trips_by_hour.map (fun r =>
         Json.obj [("hour", Json.num r.hour),
                   ("trip_count", Json.num r.trip_count)])))]

/-- Result rows of an endpoint for a validated filter over the fetched
fact rows `ts` (and the stored views for the analytics overview). -/
def endpointRows (e : Endpoint) (f : Filter) (db : DBState)
    (ts : List TripRow) : List Json :=
  match e with
  | .health => [Json.obj [("status", Json.str "ok")]]
  | .tripAnalytics => [encodeAnalytics db.analytics]
  | .mapDensity => (mapDensityQuery .pickup 150 f ts).map encodeDensityRow
  | .fareTip => (fareTipQuery f ts).map encodeFareTipRow
  | .peakHours => (peakHoursQuery f ts).map encodePeakRow
  | .vendorPerformance => (vendorPerformanceQuery f ts).map encodeVendorRow

/-- One attempt to read the fact table from the store. -/
def runQuery (db : DBState) : Except String (List TripRow) :=
  if db.available then .ok db.trips else .error "database connection failed"

/-- Modelled from the spec: the handler shared by every endpoint —
validate the parameters (failing with a 4xx validation error), issue a
single store query (failing with a 5xx service error, no retry), and
wrap the rows in the `{metadata, data}` success body.  The second
component counts the store queries issued while serving the request. -/
def serve (e : Endpoint) (p : RawParams) (db : DBState) :
    Except ApiError Json × Nat :=
  match parseFilter p with
  | .error m => (.error (.validation m), 0)
  | .ok f =>
    match runQuery db with
    | .error m => (.error (.service m), 1)
    | .ok ts => (.ok (mkSuccess f (endpointRows e f db ts)), 1)

/- ------------------------------------------------------------------
Frontend: the fare/tip hour grouping of `FareTipAnalysis`
(`TripAnalyticsDashboard.jsx`).  JavaScript numbers are modelled as
`ℚ`; rows are the normalized rows the component builds from the API
response.
------------------------------------------------------------------ -/

/-- A normalized fare/tip row as built by `FareTipAnalysis` from an
API row (`hour`, `avg_fare`, `avg_tip`, `ratio`, `trip_count` coerced
with `Number(...)`). -/
structure FtRow where
  hour : ℚ
  avg_fare : ℚ
  avg_tip : ℚ
  tip_to_fare_ratio : ℚ
  trip_count : ℚ
  payment_type : String
deriving DecidableEq

/-- One entry of the component's `grouped` map: per-hour accumulated
trip count and ratio-weighted sum. -/
structure HourGroup where
  hour : ℚ
  tripCount : ℚ
  ratioWeightedSum : ℚ
deriving DecidableEq

/-- The in-place update the component applies to the group of a row's
hour (`g.tripCount += r.trip_count; g.ratioWeightedSum += r.ratio *
r.trip_count`); identity on other groups. -/
def bumpGroup (r : FtRow) (g : HourGroup) : HourGroup :=
  if g.hour == r.hour then
    { g with
      tripCount := g.tripCount + r.trip_count
      ratioWeightedSum := g.ratioWeightedSum + r.tip_to_fare_ratio * r.trip_count }
  else g

/-- The fresh group created for a first-seen hour (`{hour: h,
tripCount: 0, ratioWeightedSum: 0}` immediately bumped by the row). -/
def newGroup (r : FtRow) : HourGroup :=
  ⟨r.hour, r.trip_count, r.tip_to_fare_ratio * r.trip_count⟩

/-- Processing one row against the group list, as the component's
`forEach` body does with its `Map`. -/
def addRow (gs : List HourGroup) (r : FtRow) : List HourGroup :=
  if gs.any (fun g => g.hour == r.hour) then gs.map (bumpGroup r)
  else gs ++ [newGroup r]

/-- The component's `grouped` map after the `forEach` over all rows,
in insertion order. -/
def groupByHour (rows : List FtRow) : List HourGroup :=
  rows.foldl addRow []

/-- The component's sort comparator `(a, b) => a.hour - b.hour`
(ascending hour). -/
def hourLeB (a b : HourGroup) : Bool := decide (a.hour ≤ b.hour)

/-- The `groupedSorted` list of the component: groups sorted by ascending
hour. -/
def groupedSorted (rows : List FtRow) : List HourGroup :=
  (groupByHour rows).mergeSort hourLeB

/-- The ratio the component charts for a group:
`g.tripCount > 0 ? g.ratioWeightedSum / g.tripCount : 0`. -/
def groupRatio (g : HourGroup) : ℚ :=
  if 0 < g.tripCount then g.ratioWeightedSum / g.tripCount else 0

/-- The `ratios` series of the tipping-behaviour chart. -/
def hourRatios (rows : List FtRow) : List ℚ :=
  (groupedSorted rows).map groupRatio

/-- Summed `trip_count` of the rows of one hour. -/
def sumCount (rows : List FtRow) (h : ℚ) : ℚ :=
  ((rows.filter (fun r => r.hour == h)).map (fun r => r.trip_count)).sum

/-- Summed `ratio * trip_count` of the rows of one hour. -/
def sumWeighted (rows : List FtRow) (h : ℚ) : ℚ :=
  ((rows.filter (fun r => r.hour == h)).map
    (fun r => r.tip_to_fare_ratio * r.trip_count)).sum

/- ------------------------------------------------------------------
Frontend: the KPI helpers of `TripAnalyticsDashboard.jsx`.  A
JavaScript number is finite, NaN or an infinity; other JavaScript
values are coerced through `Number(...)` (`jsToNumber` models the
coercions relevant to API payloads: numbers, strings, booleans, null,
undefined, objects).
------------------------------------------------------------------ -/

/-- A JavaScript number: finite (modelled as `ℚ`), NaN or ±infinity. -/
inductive JSNum where
  | finite (q : ℚ)
  | nan
  | posInf
  | negInf
deriving DecidableEq

/-- A JavaScript value as it may appear in a JSON API payload. -/
inductive JSValue where
  | num (n : JSNum)
  | str (s : String)
  | bool (b : Bool)
  | null
  | undef
  | object
deriving DecidableEq

/-- List of the values of a digit run, most significant first. -/
def natFromDigits (cs : List Char) : Nat :=
  cs.foldl (fun acc c => acc * 10 + ((digitVal c).getD 0)) 0

/-- Parse an unsigned decimal literal (`123`, `123.45`, `.5`, `5.`). -/
def parseUnsignedDec (cs : List Char) : Option ℚ :=
  let ip := cs.takeWhile (fun c => (digitVal c).isSome)
  let rest := cs.dropWhile (fun c => (digitVal c).isSome)
  match rest with
  | [] => if ip.isEmpty then none else some (natFromDigits ip : ℚ)
  | '.' :: fp =>
    if fp.all (fun c => (digitVal c).isSome) && !(ip.isEmpty && fp.isEmpty) then
      some ((natFromDigits ip : ℚ) + (natFromDigits fp : ℚ) / ((10 : ℚ) ^ fp.length))
    else none
  | _ => none

/-- Parse a signed decimal literal. -/
def parseSignedDec : List Char → Option ℚ
  | '-' :: rest => (parseUnsignedDec rest).map (fun q => -q)
  | '+' :: rest => parseUnsignedDec rest
  | cs => parseUnsignedDec cs

/-- Strip leading and trailing spaces. -/
def trimChars (cs : List Char) : List Char :=
  ((cs.dropWhile (fun c => c == ' ')).reverse.dropWhile (fun c => c == ' ')).reverse

/-- The JavaScript `Number(...)` coercion (decimal literals only; a
trimmed empty string is `0`, an unparsable string is NaN, `null` is
`0`, `undefined` and objects are NaN). -/
def jsToNumber : JSValue → JSNum
  | .num n => n
  | .bool true => .finite 1
  | .bool false => .finite 0
  | .null => .finite 0
  | .undef => .nan
  | .object => .nan
  | .str s =>
    let cs := trimChars s.data
    if cs.isEmpty then .finite 0
    else
      match parseSignedDec cs with
      | some q => .finite q
      | none => .nan

/-- The `Number.isFinite` test. -/
def jsIsFinite : JSNum → Bool
  | .finite _ => true
  | _ => false

/-- The `safeNumber` helper of `TripAnalyticsDashboard.jsx`: coerce, map anything
non-finite to `0`. -/
def safeNumber (v : JSValue) : ℚ :=
  match jsToNumber v with
  | .finite q => q
  | _ => 0

/-- Model of `Number.prototype.toFixed(d)` on a finite number modelled as `ℚ`
(round to `d` decimals, half away from nearest handled by `round`). -/
def ratToFixed (q : ℚ) (d : Nat) : String :=
  let n : ℤ := round (q * ((10 : ℚ) ^ d))
  let m := n.natAbs
  let ip := m / 10 ^ d
  let fs := toString (m % 10 ^ d)
  (if n < 0 then "-" else "") ++ toString ip ++
    (if d = 0 then ""
     else "." ++ (List.replicate (d - fs.length) '0').asString ++ fs)

/-- Plain decimal rendering of a finite number (integer values render
without a fraction part, like JavaScript `toString`; non-integers are
approximated to two decimals, a detail no claim touches). -/
def ratToString (q : ℚ) : String :=
  if q.den = 1 then toString q.num else ratToFixed q 2

/-- The `formatLargeNumber` helper of `TripAnalyticsDashboard.jsx`. -/
def formatLargeNumber (v : JSValue) : String :=
  match jsToNumber v with
  | .finite q =>
    if 1000000 ≤ q then ratToFixed (q / 1000000) 2 ++ "M"
    else if 1000 ≤ q then ratToFixed (q / 1000) 1 ++ "K"
    else ratToString q
  | _ => "-"

/-- The `formatCurrency` helper of `TripAnalyticsDashboard.jsx`. -/
def formatCurrency (v : JSValue) : String :=
  match jsToNumber v with
  | .finite q =>
    if 1000000 ≤ q then "$" ++ ratToFixed (q / 1000000) 2 ++ "M"
    else if 1000 ≤ q then "$" ++ ratToFixed (q / 1000) 1 ++ "K"
    else "$" ++ ratToFixed q 2
  | _ => "-"

/-- The raw KPI object of the `/api/trip-analytics` response as the
dashboard receives it (fields of arbitrary JavaScript type). -/
structure ApiKpis where
  total_trips : JSValue
  avg_fare : JSValue
  avg_distance : JSValue
  avg_duration_min : JSValue
  total_revenue : JSValue
deriving DecidableEq

/-- The five KPI cards the dashboard renders: each API value goes
through `safeNumber` and then the matching formatter, exactly as in
the component. -/
def renderKpis (k : ApiKpis) : List (String × String) :=
  [("Total Trips",
      formatLargeNumber (JSValue.num (JSNum.finite (safeNumber k.total_trips)))),
   ("Average Fare",
      formatCurrency (JSValue.num (JSNum.finite (safeNumber k.avg_fare)))),
   ("Average Distance", ratToFixed (safeNumber k.avg_distance) 2 ++ " mi"),
   ("Average Duration", ratToFixed (safeNumber k.avg_duration_min) 1 ++ " min"),
   ("Total Revenue",
      formatCurrency (JSValue.num (JSNum.finite (safeNumber k.total_revenue))))]

/- ------------------------------------------------------------------
Concrete fixtures used by the witness theorems.
------------------------------------------------------------------ -/

/-- The cash-only request of the vendor-performance example
(`payment_id=2`, no other filter). -/
def cashFilter : Filter := ⟨none, none, none, none, none, some 2⟩

/-- A reachable store with no data loaded. -/
def dbFix : DBState := ⟨true, [], [], computeAnalytics [] []⟩

/-- An unreachable store. -/
def dbDown : DBState := ⟨false, [], [], computeAnalytics [] []⟩

/-- A cash CMT trip (10 minutes starting at the epoch). -/
def rawTripFix1 : RawTrip := ⟨0, 600, 1, 10, 2, 12, 1, 1, 2, "CMT", 2⟩

/-- A credit-card VTS trip. -/
def rawTripFix2 : RawTrip := ⟨3600, 4200, 2, 20, 0, 20, 2, 3, 4, "VTS", 1⟩

/-- A two-trip fact table. -/
def tsFix : List TripRow := [loadTrip rawTripFix1, loadTrip rawTripFix2]

/-- A normalized fare/tip row for hour 12. -/
def ftRowFix : FtRow := ⟨12, 10, 2, 1/5, 100, "CRD"⟩

/-- A request with a malformed `weekday` value. -/
def badParams : RawParams := ⟨none, none, some "9", none, none, none⟩

/- ------------------------------------------------------------------
Theorems.
------------------------------------------------------------------ -/

/-- Every row kept by the conjunctive WHERE clause is a fact row, and
it satisfies each supplied predicate; nothing else passes. -/
theorem tripMatches_iff (f : Filter) (t : TripRow) :
    tripMatches f t = true ↔
      optSat f.start (fun s => s ≤ t.pickup_time)
        ∧ optSat f.end_ (fun e => t.pickup_time ≤ e)
        ∧ optSat f.weekday (fun w => t.pickup_weekday = w)
        ∧ optSat f.hour (fun h => t.pickup_hour = h)
        ∧ optSat f.vendor_id (fun v => t.vendor_id = v)
        ∧ optSat f.payment_id (fun p => t.payment_id = p) := by
  obtain ⟨s, e, w, h, v, p⟩ := f
  simp only [tripMatches]
  cases s <;> cases e <;> cases w <;> cases h <;> cases v <;> cases p <;>
    simp [optSat, and_assoc]

/-- C1.  Filters are conjunctive and exhaustive: a row is in the
filtered result iff it is a fact row satisfying every supplied filter
predicate; an absent filter (the `none` branch of `optSat`) imposes no
constraint. -/
theorem filters_conjunctive_exact (f : Filter) (ts : List TripRow)
    (t : TripRow) :
    t ∈ filterTrips f ts ↔
      t ∈ ts ∧ optSat f.start (fun s => s ≤ t.pickup_time)
        ∧ optSat f.end_ (fun e => t.pickup_time ≤ e)
        ∧ optSat f.weekday (fun w => t.pickup_weekday = w)
        ∧ optSat f.hour (fun h => t.pickup_hour = h)
        ∧ optSat f.vendor_id (fun v => t.vendor_id = v)
        ∧ optSat f.payment_id (fun p => t.payment_id = p) := by
  rw [filterTrips, List.mem_filter, tripMatches_iff]

/-- C2.  The peak-hours query returns at most 10 rows, sorted by
descending trip count, for every filter and fact table. -/
theorem peakHours_top10_sorted_desc (f : Filter) (ts : List TripRow) :
    (peakHoursQuery f ts).length ≤ 10 ∧
      (peakHoursQuery f ts).Pairwise (fun a b => b.trip_count ≤ a.trip_count) := by
  constructor
  · exact List.length_take_le 10 _
  · have htrans : ∀ a b c : PeakRow, peakLe a b = true → peakLe b c = true →
        peakLe a c = true := by
      intro a b c hab hbc
      simp only [peakLe, decide_eq_true_eq] at *
      omega
    have htotal : ∀ a b : PeakRow, (peakLe a b || peakLe b a) = true := by
      intro a b
      simp only [peakLe, Bool.or_eq_true, decide_eq_true_eq]
      omega
    have hs := List.sorted_mergeSort htrans htotal (aggPeak (filterTrips f ts))
    exact (List.Pairwise.sublist (List.take_sublist _ _) hs).imp
      (fun hab => of_decide_eq_true hab)

/-- C3.  The aggregate rebuild is a pure function of the current fact
table: running it twice equals running it once, the fact table is
untouched, and the rebuilt views are exactly the recomputation from
the fact table. -/
theorem refresh_idempotent (db : DBState) :
    refreshTripAnalytics (refreshTripAnalytics db) = refreshTripAnalytics db ∧
      (refreshTripAnalytics db).trips = db.trips ∧
      (refreshTripAnalytics db).analytics = computeAnalytics db.zones db.trips :=
  ⟨rfl, rfl, rfl⟩

/-- The empty filter keeps every fact row. -/
theorem filterTrips_empty (ts : List TripRow) :
    filterTrips Filter.empty ts = ts := by
  have hp : tripMatches Filter.empty = fun _ => true := funext fun _ => rfl
  rw [filterTrips, hp, List.filter_true]

/-- C4.  A request with no filter parameters returns the unfiltered
global aggregate: filtering with the empty filter is the identity, so
each endpoint's result is the aggregate of the whole fact table. -/
theorem empty_filter_global_aggregate (ts : List TripRow) (dt : DensityType)
    (lim : Nat) :
    filterTrips Filter.empty ts = ts ∧
      peakHoursQuery Filter.empty ts = aggPeakTop ts ∧
      vendorPerformanceQuery Filter.empty ts = aggVendor ts ∧
      fareTipQuery Filter.empty ts = aggFareTip ts ∧
      mapDensityQuery dt lim Filter.empty ts = aggDensity dt lim ts := by
  refine ⟨filterTrips_empty ts, ?_, ?_, ?_, ?_⟩ <;>
    simp [peakHoursQuery, vendorPerformanceQuery, fareTipQuery, mapDensityQuery,
      filterTrips_empty]

/-- C8.  Loading a trip stores the derived columns computed from the
timestamps — day of week of the pickup (in `0..6`, `0` anchored at
Sunday: 2025-01-05 and 2025-01-11 were a Sunday and a Saturday), hour
of the pickup in `0..23`, and the trip duration in minutes — it leaves
the raw columns unchanged, and the aggregate refresh never mutates
stored rows. -/
theorem derived_fields_at_load (r : RawTrip) (db : DBState) :
    (loadTrip r).pickup_weekday = extractDow r.pickup_time ∧
      (loadTrip r).pickup_weekday < 7 ∧
      (loadTrip r).pickup_hour = extractHour r.pickup_time ∧
      (loadTrip r).pickup_hour < 24 ∧
      (loadTrip r).trip_duration_min =
        ((r.dropoff_time : ℚ) - (r.pickup_time : ℚ)) / 60 ∧
      (loadTrip r).toRawTrip = r ∧
      (refreshTripAnalytics db).trips = db.trips ∧
      extractDow (86400 * daysSinceEpoch 2025 1 5) = 0 ∧
      extractDow (86400 * daysSinceEpoch 2025 1 11) = 6 :=
  ⟨rfl, by simp only [loadTrip, extractDow]; omega,
   rfl, by simp only [loadTrip, extractHour]; omega,
   rfl, rfl, rfl, by decide, by decide⟩

/-- C5.  Every success response of every endpoint is a JSON object
carrying both a `metadata` field and a `data` field. -/
theorem success_response_envelope (e : Endpoint) (p : RawParams)
    (db : DBState) :
    ∀ j, (serve e p db).1 = .ok j →
      j.hasKey "metadata" = true ∧ j.hasKey "data" = true := by
  intro j hj
  unfold serve at hj
  cases hp : parseFilter p with
  | error m => rw [hp] at hj; simp at hj
  | ok f =>
    rw [hp] at hj
    unfold runQuery at hj
    by_cases hav : db.available
    · simp only [hav, if_true] at hj
      obtain rfl : mkSuccess f (endpointRows e f db db.trips) = j := by
        simpa using hj
      exact ⟨rfl, rfl⟩
    · simp [hav] at hj

/-- Witness for C5: the health endpoint of a reachable empty store
answers with a body carrying `metadata` and `data`. -/
theorem success_response_envelope_witness :
    (mkSuccess Filter.empty
        (endpointRows .health Filter.empty dbFix [])).hasKey "metadata" = true ∧
      (mkSuccess Filter.empty
        (endpointRows .health Filter.empty dbFix [])).hasKey "data" = true :=
  success_response_envelope .health RawParams.empty dbFix
    (mkSuccess Filter.empty (endpointRows .health Filter.empty dbFix [])) rfl

/-- C6.  The three error behaviours of every request: a malformed
filter value yields a 400 validation error carrying the message and no
store query; an unreachable store yields a 500 service error after the
single query attempt (at most one store query is ever issued, so there
is no retry); otherwise the request succeeds — in particular an empty
fact table still succeeds, with every aggregate empty. -/
theorem error_taxonomy (e : Endpoint) (p : RawParams) (db : DBState)
    (fE : Filter) (dt : DensityType) (lim : Nat) :
    (serve e p db).2 ≤ 1 ∧
      (match parseFilter p, db.available with
        | .error m, _ =>
            serve e p db = (.error (.validation m), 0) ∧
              (ApiError.validation m).status = 400
        | .ok _, false =>
            serve e p db = (.error (.service "database connection failed"), 1) ∧
              (ApiError.service "database connection failed").status = 500
        | .ok f, true =>
            serve e p db = (.ok (mkSuccess f (endpointRows e f db db.trips)), 1)) ∧
      peakHoursQuery fE [] = [] ∧
      vendorPerformanceQuery fE [] = [] ∧
      fareTipQuery fE [] = [] ∧
      mapDensityQuery dt lim fE [] = [] := by
  refine ⟨?_, ?_, ?_, ?_, ?_, ?_⟩
  · unfold serve
    cases hp : parseFilter p with
    | error m => simp
    | ok f => cases hq : runQuery db <;> simp
  · cases hp : parseFilter p with
    | error m => simp [hp, serve, ApiError.status]
    | ok f =>
      cases hav : db.available <;>
        simp [hp, hav, serve, runQuery, ApiError.status]
  · simp [peakHoursQuery, aggPeakTop, filterTrips, aggPeak, List.mergeSort_nil]
  · simp [vendorPerformanceQuery, filterTrips, aggVendor]
  · simp [fareTipQuery, filterTrips, aggFareTip]
  · simp [mapDensityQuery, aggDensity, filterTrips, List.mergeSort_nil]

/-- Tip of C6 at concrete inputs: a malformed `weekday` yields the 400
validation error without touching the store, and an unreachable store
yields the 500 service error after one attempt. -/
theorem error_taxonomy_witness :
    (serve .peakHours badParams dbFix =
        (.error (.validation "weekday must be an integer between 0 and 6"), 0) ∧
      (ApiError.validation "weekday must be an integer between 0 and 6").status
        = 400) ∧
      (serve .peakHours RawParams.empty dbDown =
          (.error (.service "database connection failed"), 1) ∧
        (ApiError.service "database connection failed").status = 500) :=
  ⟨(error_taxonomy .peakHours badParams dbFix Filter.empty .pickup 150).2.1,
   (error_taxonomy .peakHours RawParams.empty dbDown Filter.empty .pickup
      150).2.1⟩

/-- The cash filter is exactly the `payment_id = 2` predicate. -/
theorem tripMatches_cash (t : TripRow) :
    tripMatches cashFilter t = (t.payment_id == 2) := rfl

/-- Counting a vendor's rows among the filtered trips is counting that
vendor's key among the mapped vendor ids. -/
theorem length_filter_vendor (fts : List TripRow) (v : String) :
    (fts.filter (fun t => t.vendor_id == v)).length =
      (fts.map (fun t => t.vendor_id)).count v := by
  rw [List.count_eq_countP, List.countP_map, ← List.countP_eq_length_filter]
  rfl

/-- C7.  Vendor performance under `payment_id=2`: every returned row
counts exactly the cash trips of its vendor, and the trip counts of
all returned rows sum to the total number of cash trips in the fact
table. -/
theorem vendor_cash_totals (ts : List TripRow) :
    (∀ row ∈ vendorPerformanceQuery cashFilter ts,
        row.trip_count =
          ts.countP (fun t => t.vendor_id == row.vendor_id
            && t.payment_id == 2)) ∧
      ((vendorPerformanceQuery cashFilter ts).map
          (fun r => r.trip_count)).sum =
        ts.countP (fun t => t.payment_id == 2) := by
  constructor
  · intro row hrow
    unfold vendorPerformanceQuery aggVendor at hrow
    obtain ⟨v, hv, rfl⟩ := List.mem_map.mp hrow
    show (List.filter _ _).length = _
    rw [← List.countP_eq_length_filter]
    unfold filterTrips
    rw [List.countP_filter]
    simp only [tripMatches_cash]
  · have hmap : (vendorPerformanceQuery cashFilter ts).map (fun r => r.trip_count)
        = List.map
            (fun v => ((filterTrips cashFilter ts).map
              (fun t => t.vendor_id)).count v)
            ((filterTrips cashFilter ts).map (fun t => t.vendor_id)).dedup := by
      unfold vendorPerformanceQuery aggVendor
      rw [List.map_map]
      exact List.map_congr_left (fun v _ => length_filter_vendor _ v)
    rw [hmap, List.sum_map_count_dedup_eq_length, List.length_map]
    unfold filterTrips
    rw [← List.countP_eq_length_filter]
    exact congrArg (fun pr => List.countP pr ts) (funext tripMatches_cash)

/-- Witness for C7 on a two-trip fact table (one cash CMT trip, one
credit VTS trip). -/
theorem vendor_cash_totals_witness :
    ((vendorPerformanceQuery cashFilter tsFix).map
        (fun r => r.trip_count)).sum =
      tsFix.countP (fun t => t.payment_id == 2) ∧
      tsFix.countP (fun t => t.payment_id == 2) = 1 :=
  ⟨(vendor_cash_totals tsFix).2, by decide⟩

/-- C10.  KPI rendering is total: `safeNumber` maps every value that
does not coerce to a finite number to `0` (and is the identity on
finite coercions), the two formatters render `"-"` exactly on
non-finite inputs, the number fed to `.toFixed` is always finite, and
the dashboard always renders its five KPI cards. -/
theorem kpi_rendering_total (v : JSValue) (k : ApiKpis) :
    (jsIsFinite (jsToNumber v) = false → safeNumber v = 0) ∧
      (jsIsFinite (jsToNumber v) = false →
        formatLargeNumber v = "-" ∧ formatCurrency v = "-") ∧
      (∀ q, jsToNumber v = JSNum.finite q → safeNumber v = q) ∧
      jsIsFinite (JSNum.finite (safeNumber v)) = true ∧
      (renderKpis k).map (fun card => card.1) =
        ["Total Trips", "Average Fare", "Average Distance",
         "Average Duration", "Total Revenue"] := by
  refine ⟨?_, ?_, ?_, rfl, rfl⟩ <;>
    · intro h
      cases hv : jsToNumber v <;>
        simp_all [safeNumber, formatLargeNumber, formatCurrency, jsIsFinite]

/-- Witness for C10 at the non-finite input NaN. -/
theorem kpi_rendering_total_witness :
    safeNumber (JSValue.num JSNum.nan) = 0 ∧
      formatLargeNumber (JSValue.num JSNum.nan) = "-" ∧
      formatCurrency (JSValue.num JSNum.nan) = "-" :=
  ⟨(kpi_rendering_total (JSValue.num JSNum.nan) ⟨.null, .null, .null, .null,
      .null⟩).1 rfl,
   (kpi_rendering_total (JSValue.num JSNum.nan) ⟨.null, .null, .null, .null,
      .null⟩).2.1 rfl⟩

/-- Bumping a group never changes its hour. -/
theorem bumpGroup_hour (r : FtRow) (g : HourGroup) :
    (bumpGroup r g).hour = g.hour := by
  unfold bumpGroup
  split <;> rfl

/-- Effect of processing one row on the group found for an hour. -/
theorem find?_addRow (gs : List HourGroup) (r : FtRow) (h : ℚ) :
    (addRow gs r).find? (fun g => g.hour == h) =
      if r.hour == h then
        match gs.find? (fun g => g.hour == h) with
        | some g => some ⟨g.hour, g.tripCount + r.trip_count,
            g.ratioWeightedSum + r.tip_to_fare_ratio * r.trip_count⟩
        | none => some (newGroup r)
      else gs.find? (fun g => g.hour == h) := by
  unfold addRow
  by_cases hex : gs.any (fun g => g.hour == r.hour)
  · rw [if_pos hex, List.find?_map]
    have hcomp : ((fun g : HourGroup => g.hour == h) ∘ bumpGroup r)
        = fun g => g.hour == h := by
      funext g
      simp [Function.comp, bumpGroup_hour]
    rw [hcomp]
    by_cases hrh : (r.hour == h) = true
    · rw [if_pos hrh]
      obtain rfl : h = r.hour := (eq_of_beq hrh).symm
      obtain ⟨g, hg⟩ : ∃ g, gs.find? (fun g => g.hour == r.hour) = some g := by
        cases hfind : gs.find? (fun g => g.hour == r.hour) with
        | none =>
          rw [List.find?_eq_none] at hfind
          obtain ⟨x, hx, hpx⟩ := List.any_eq_true.mp hex
          exact absurd hpx (hfind x hx)
        | some g => exact ⟨g, rfl⟩
      rw [hg]
      have hgh := List.find?_some hg
      simp only [] at hgh
      simp [bumpGroup, hgh]
    · rw [if_neg hrh]
      cases hfind : gs.find? (fun g => g.hour == h) with
      | none => rfl
      | some g =>
        have hgh := List.find?_some hfind
        simp only [] at hgh
        have hgr : (g.hour == r.hour) = false := by
          rw [beq_eq_false_iff_ne]
          intro hcontra
          exact hrh (beq_iff_eq.mpr (hcontra.symm.trans (eq_of_beq hgh)))
        simp [bumpGroup, hgr]
  · rw [if_neg hex, List.find?_append]
    have hnone : gs.find? (fun g => g.hour == r.hour) = none := by
      rw [List.find?_eq_none]
      intro x hx hpx
      exact hex (List.any_eq_true.mpr ⟨x, hx, hpx⟩)
    by_cases hrh : (r.hour == h) = true
    · obtain rfl : h = r.hour := (eq_of_beq hrh).symm
      rw [hnone, if_pos hrh]
      simp [newGroup]
    · rw [if_neg hrh]
      have hnew : List.find? (fun g => g.hour == h) [newGroup r] = none := by
        simp [newGroup]
        exact fun hcontra => hrh (beq_iff_eq.mpr hcontra)
      rw [hnew, Option.or_none]

/-- The group found for an hour after the whole fold accumulates
exactly the per-hour sums of the processed rows. -/
theorem find?_groupFold (rows : List FtRow) : ∀ (gs : List HourGroup) (h : ℚ),
    (rows.foldl addRow gs).find? (fun g => g.hour == h) =
      match gs.find? (fun g => g.hour == h) with
      | some g => some ⟨g.hour, g.tripCount + sumCount rows h,
          g.ratioWeightedSum + sumWeighted rows h⟩
      | none =>
        if rows.any (fun r => r.hour == h) then
          some ⟨h, sumCount rows h, sumWeighted rows h⟩
        else none := by
  induction rows with
  | nil =>
    intro gs h
    cases hfind : gs.find? (fun g => g.hour == h) with
    | none => simp [hfind]
    | some g => simp [hfind, sumCount, sumWeighted]
  | cons r rows ih =>
    intro gs h
    rw [List.foldl_cons, ih (addRow gs r) h, find?_addRow]
    by_cases hrh : (r.hour == h) = true
    · rw [if_pos hrh]
      have hs : sumCount (r :: rows) h = r.trip_count + sumCount rows h := by
        simp [sumCount, List.filter_cons, hrh]
      have hw : sumWeighted (r :: rows) h
          = r.tip_to_fare_ratio * r.trip_count + sumWeighted rows h := by
        simp [sumWeighted, List.filter_cons, hrh]
      cases hfind : gs.find? (fun g => g.hour == h) with
      | some g =>
        simp only [hfind, hs, hw]
        rw [add_assoc, add_assoc]
      | none =>
        obtain rfl : r.hour = h := eq_of_beq hrh
        simp [hfind, List.any_cons, hrh, hs, hw, newGroup]
    · rw [if_neg hrh]
      have hs : sumCount (r :: rows) h = sumCount rows h := by
        simp [sumCount, List.filter_cons, hrh]
      have hw : sumWeighted (r :: rows) h = sumWeighted rows h := by
        simp [sumWeighted, List.filter_cons, hrh]
      have ha : (r :: rows).any (fun x => x.hour == h) =
          rows.any (fun x => x.hour == h) := by
        simp [List.any_cons, hrh]
      rw [hs, hw, ha]

/-- Processing a row keeps the group hours pairwise distinct. -/
theorem nodup_hours_addRow (gs : List HourGroup) (r : FtRow)
    (hnd : (gs.map (fun g => g.hour)).Nodup) :
    ((addRow gs r).map (fun g => g.hour)).Nodup := by
  unfold addRow
  by_cases hex : gs.any (fun g => g.hour == r.hour)
  · rw [if_pos hex, List.map_map]
    have hcomp : ((fun g : HourGroup => g.hour) ∘ bumpGroup r)
        = fun g => g.hour := by
      funext g
      simp [Function.comp, bumpGroup_hour]
    rw [hcomp]
    exact hnd
  · rw [if_neg hex, List.map_append]
    refine hnd.append (List.nodup_singleton _) ?_
    intro a ha hb
    simp only [List.map_cons, List.map_nil, List.mem_singleton] at hb
    obtain ⟨g, hg, hgh⟩ := List.mem_map.mp ha
    subst hb
    exact hex (List.any_eq_true.mpr ⟨g, hg, beq_iff_eq.mpr hgh⟩)

/-- The whole fold keeps the group hours pairwise distinct. -/
theorem nodup_hours_groupFold (rows : List FtRow) : ∀ gs : List HourGroup,
    (gs.map (fun g => g.hour)).Nodup →
    ((rows.foldl addRow gs).map (fun g => g.hour)).Nodup := by
  induction rows with
  | nil => exact fun gs h => h
  | cons r rows ih => exact fun gs h => ih _ (nodup_hours_addRow gs r h)

/-- In a group list with pairwise-distinct hours, searching for a
member's hour finds that member. -/
theorem find?_of_mem_nodup : ∀ (l : List HourGroup) (g : HourGroup),
    g ∈ l → ((l.map (fun x => x.hour)).Nodup) →
    l.find? (fun x => x.hour == g.hour) = some g := by
  intro l
  induction l with
  | nil => intro g hg _; cases hg
  | cons a l ih =>
    intro g hg hnd
    rw [List.map_cons, List.nodup_cons] at hnd
    obtain ⟨hna, hndl⟩ := hnd
    cases List.mem_cons.mp hg with
    | inl h =>
      subst h
      exact List.find?_cons_of_pos l (beq_iff_eq.mpr rfl)
    | inr h =>
      have hne : ¬((fun x : HourGroup => x.hour == g.hour) a = true) := by
        intro hcontra
        exact hna (List.mem_map.mpr ⟨g, h, (eq_of_beq hcontra).symm⟩)
      rw [List.find?_cons_of_neg l hne]
      exact ih g h hndl

/-- C9.  The fare/tip chart groups are emitted sorted by ascending
hour, and each group carries exactly the per-hour sums, so the charted
ratio is the trip-count-weighted mean of the hour's rows when the
summed count is positive and `0` otherwise — the computation is total
and never divides by zero. -/
theorem fareTip_weighted_mean_sorted (rows : List FtRow) :
    (groupedSorted rows).Pairwise (fun a b => a.hour ≤ b.hour) ∧
      (∀ g ∈ groupedSorted rows,
        g.tripCount = sumCount rows g.hour ∧
          g.ratioWeightedSum = sumWeighted rows g.hour ∧
          groupRatio g =
            (if 0 < sumCount rows g.hour then
              sumWeighted rows g.hour / sumCount rows g.hour
            else 0)) := by
  constructor
  · have htrans : ∀ a b c : HourGroup, hourLeB a b = true →
        hourLeB b c = true → hourLeB a c = true := by
      intro a b c
      simp only [hourLeB, decide_eq_true_eq]
      exact le_trans
    have htotal : ∀ a b : HourGroup, (hourLeB a b || hourLeB b a) = true := by
      intro a b
      simp only [hourLeB, Bool.or_eq_true, decide_eq_true_eq]
      exact le_total a.hour b.hour
    exact (List.sorted_mergeSort htrans htotal (groupByHour rows)).imp
      (fun hab => of_decide_eq_true hab)
  · intro g hg
    have hmem : g ∈ groupByHour rows :=
      ((List.mergeSort_perm (groupByHour rows) hourLeB).mem_iff).mp hg
    have hnd : ((groupByHour rows).map (fun x => x.hour)).Nodup :=
      nodup_hours_groupFold rows [] (by simp)
    have hfind := find?_of_mem_nodup (groupByHour rows) g hmem hnd
    have hfold := find?_groupFold rows [] g.hour
    rw [show List.foldl addRow [] rows = groupByHour rows from rfl, hfind,
      List.find?_nil] at hfold
    by_cases hany : rows.any (fun r => r.hour == g.hour) = true
    · rw [if_pos hany] at hfold
      have hg_eq := Option.some.inj hfold
      refine ⟨congrArg HourGroup.tripCount hg_eq,
        congrArg HourGroup.ratioWeightedSum hg_eq, ?_⟩
      rw [groupRatio, congrArg HourGroup.tripCount hg_eq,
        congrArg HourGroup.ratioWeightedSum hg_eq]
    · rw [if_neg hany] at hfold
      cases hfold

/-- Witness for C9 on a one-row input: the group's charted ratio is
the weighted mean of that hour. -/
theorem fareTip_weighted_mean_sorted_witness :
    groupRatio (newGroup ftRowFix) =
      (if 0 < sumCount [ftRowFix] (newGroup ftRowFix).hour then
        sumWeighted [ftRowFix] (newGroup ftRowFix).hour /
          sumCount [ftRowFix] (newGroup ftRowFix).hour
      else 0) :=
  (((fareTip_weighted_mean_sorted [ftRowFix]).2 (newGroup ftRowFix)
    (((List.mergeSort_perm (groupByHour [ftRowFix]) hourLeB).mem_iff).mpr
      (List.mem_singleton.mpr rfl)))).2.2

end TaxiAnalytics
